import Mathlib

/-!
Verification development for the humidity/temperature monitor
(`pseudo_sensor.py` and `GUIProject/main.py`).

Conventions of the shallow embedding:
* Python floats are modelled as rationals (`ℚ`); all arithmetic in the
  program (band value + jitter, `max`/`min` clamping, threshold
  comparison, mean) is exact on the values it is applied to.
* The SQLite table `readings(ts, humidity, temperature)` is modelled as a
  `List Reading` in insertion order; `SELECT ... ORDER BY ts DESC LIMIT n`
  is modelled by sorting by timestamp descending and taking a limit,
  where a negative limit means "no limit" (SQLite semantics of a negative
  `LIMIT` argument).
* `random.uniform(0, 10)` / `random.uniform(0, 5)` outcomes and
  `time.time()` results are passed in as explicit parameters.
* The Qt widgets are modelled by the values they hold (label values,
  progress-bar integers, button enabled flags, timer active flag).
-/

/-- One row of the `readings` table: `(ts, humidity, temperature)`. -/
structure Reading where
  ts : ℚ
  humidity : ℚ
  temperature : ℚ
deriving DecidableEq

/-- State of `PseudoSensor` (`pseudo_sensor.py`): the two cyclic band
indices, plus the last (pre-clamp) values stored on `self`. -/
structure PseudoSensor where
  h_index : Fin 15
  t_index : Fin 15
  hum_val : ℚ
  temp_val : ℚ
deriving DecidableEq

namespace PseudoSensor

/-- Humidity bands 0–100% (`PseudoSensor.h_range`). -/
def h_range : List ℚ := [0, 20, 20, 40, 40, 60, 60, 80, 80, 90, 70, 50, 30, 10, 0]

/-- Temperature bands in Fahrenheit (`PseudoSensor.t_range`). -/
def t_range : List ℚ := [-20, -10, 0, 10, 30, 50, 70, 85, 95, 100, 90, 70, 50, 30, 10]

/-- `PseudoSensor.__init__`: both indices start at 0, the cached values
start at the first band entries. -/
def init : PseudoSensor :=
  { h_index := 0, t_index := 0
    hum_val := h_range.getD 0 0, temp_val := t_range.getD 0 0 }

/-- `PseudoSensor.generate_values`. The jitter outcomes
`jh = random.uniform(0, 10)` and `jt = random.uniform(0, 5)` are passed
in explicitly. Returns the clamped `(h, t)` pair and the updated sensor
state (indices rolled by 1 mod 15, cached pre-clamp values updated). -/
def generate_values (jh jt : ℚ) (s : PseudoSensor) : (ℚ × ℚ) × PseudoSensor :=
  let hum_val := h_range.getD s.h_index.val 0 + jh
  let temp_val := t_range.getD s.t_index.val 0 + jt
  let h_index : Fin 15 := ⟨(s.h_index.val + 1) % 15, Nat.mod_lt _ (by norm_num)⟩
  let t_index : Fin 15 := ⟨(s.t_index.val + 1) % 15, Nat.mod_lt _ (by norm_num)⟩
  let h := max 0 (min hum_val 100)
  let t := max (-20) (min temp_val 100)
  ((h, t),
   { h_index := h_index, t_index := t_index, hum_val := hum_val, temp_val := temp_val })

end PseudoSensor

namespace SensorApp

/-- `SensorApp._insert_reading`: append a row with timestamp `ts` when the
caller supplied one, else the current time `now` (`time.time()`); the
store performs no range check on `h` or `t`. Returns the timestamp
actually recorded together with the new table contents. -/
def insert_reading (conn : List Reading) (h t : ℚ) (ts : Option ℚ) (now : ℚ) :
    ℚ × List Reading :=
  let tsv := ts.getD now
  (tsv, conn ++ [{ ts := tsv, humidity := h, temperature := t }])

/-- Row order used by `ORDER BY ts DESC`: `a` before `b` when
`b.ts ≤ a.ts`. -/
def tsDesc (a b : Reading) : Prop := b.ts ≤ a.ts

instance : DecidableRel tsDesc := fun a b => inferInstanceAs (Decidable (b.ts ≤ a.ts))

instance : IsTotal Reading tsDesc := ⟨fun a b => (le_total b.ts a.ts)⟩

instance : IsTrans Reading tsDesc := ⟨fun _ _ _ hab hbc => le_trans hbc hab⟩

/-- `SensorApp._fetch_last_n`: `SELECT ts, humidity, temperature FROM
readings ORDER BY ts DESC LIMIT ?`. In SQLite a negative `LIMIT`
argument means no limit, so all rows are returned in that case. -/
def fetch_last_n (conn : List Reading) (n : ℤ) : List Reading :=
  let sorted := List.insertionSort tsDesc conn
  if n < 0 then sorted else sorted.take n.toNat

/-- `SensorApp._check_alarms` rule: alarm iff the humidity exceeds
`self.h_alarm.value()` or the temperature exceeds
`self.t_alarm.value()`. -/
def check_alarms (h t h_alarm t_alarm : ℚ) : Bool :=
  decide (h > h_alarm) || decide (t > t_alarm)

end SensorApp

/-- Python `int(q)` on a float: truncation toward zero (used only for the
progress-bar values in `_update_latest_display`). -/
def pyInt (q : ℚ) : ℤ := if 0 ≤ q then ⌊q⌋ else ⌈q⌉

/-- The modelled state of the `SensorApp` widget: sensor state, table
contents, the values held by the labels and bars, the alarm-threshold
spin boxes, the alarm indicator, the status line, the two read buttons'
enabled flags, and the batch timer/counter. -/
structure SensorAppState where
  sensor : PseudoSensor
  conn : List Reading
  h_label : Option ℚ
  t_label : Option ℚ
  ts_label : Option ℚ
  h_bar : ℤ
  t_bar : ℤ
  h_alarm : ℚ
  t_alarm : ℚ
  alarm_on : Bool
  status_label : String
  btn_read_one_enabled : Bool
  btn_read_ten_enabled : Bool
  batch_timer_active : Bool
  batch_remaining : ℤ
deriving DecidableEq

namespace SensorApp

/-- `SensorApp.__init__` on a fresh database file: empty table, labels
showing no reading yet, alarm defaults 85 % / 90 °F, no alarm, both
buttons enabled, batch timer stopped with `batch_remaining = 0`. -/
def initState : SensorAppState :=
  { sensor := PseudoSensor.init
    conn := []
    h_label := none, t_label := none, ts_label := none
    h_bar := 0, t_bar := 0
    h_alarm := 85, t_alarm := 90
    alarm_on := false
    status_label := "Ready."
    btn_read_one_enabled := true, btn_read_ten_enabled := true
    batch_timer_active := false, batch_remaining := 0 }

/-- `SensorApp._update_latest_display`: set the value labels and the
clamped integer bars, update the timestamp label when one is given, then
run `_check_alarms` on the displayed pair. -/
def update_latest_display (h t : ℚ) (ts : Option ℚ) (s : SensorAppState) :
    SensorAppState :=
  let h_clamped := max 0 (min (pyInt h) 100)
  let t_clamped := max (-20) (min (pyInt t) 100)
  { s with
    h_label := some h, t_label := some t
    h_bar := h_clamped, t_bar := t_clamped
    ts_label := match ts with | some v => some v | none => s.ts_label
    alarm_on := check_alarms h t s.h_alarm s.t_alarm }

/-- `SensorApp.read_one`: sample the sensor once, insert the reading at
the current time `now`, refresh the display (including the alarm check)
and set the status line. The jitter outcomes are passed in. -/
def read_one (jh jt now : ℚ) (s : SensorAppState) : SensorAppState :=
  let g := PseudoSensor.generate_values jh jt s.sensor
  let h := g.1.1
  let t := g.1.2
  let ins := insert_reading s.conn h t none now
  let s1 := update_latest_display h t (some ins.1) { s with sensor := g.2, conn := ins.2 }
  { s1 with status_label := "Read 1: done." }

/-- `SensorApp.read_ten`: when the batch timer is already active, return
immediately; otherwise set `batch_remaining` to 10, disable both read
buttons, set the status line and start the timer. -/
def read_ten (s : SensorAppState) : SensorAppState :=
  if s.batch_timer_active then s
  else
    { s with
      batch_remaining := 10
      status_label := "Starting 10 reads..."
      btn_read_one_enabled := false
      btn_read_ten_enabled := false
      batch_timer_active := true }

/-- `SensorApp._batch_read_tick`: one sample/insert/display cycle, then
decrement `batch_remaining`; when it has reached 0 (or less) stop the
timer, re-enable both buttons and set the completion status. -/
def batch_read_tick (jh jt now : ℚ) (s : SensorAppState) : SensorAppState :=
  let g := PseudoSensor.generate_values jh jt s.sensor
  let h := g.1.1
  let t := g.1.2
  let ins := insert_reading s.conn h t none now
  let s1 := update_latest_display h t (some ins.1) { s with sensor := g.2, conn := ins.2 }
  let s2 :=
    { s1 with
      batch_remaining := s1.batch_remaining - 1
      status_label := "Reading batch... remaining: " ++ toString (s1.batch_remaining - 1) }
  if s2.batch_remaining ≤ 0 then
    { s2 with
      batch_timer_active := false
      btn_read_one_enabled := true
      btn_read_ten_enabled := true
      status_label := "Read 10: complete." }
  else s2

/-- A batch environment: one `(jh, jt, now)` triple per timer tick. -/
def runTicks : List (ℚ × ℚ × ℚ) → SensorAppState → SensorAppState
  | [], s => s
  | e :: rest, s => runTicks rest (batch_read_tick e.1 e.2.1 e.2.2 s)

/-- What the `Show Last 10 Stats` dialog displays. -/
inductive StatsView where
  | noReadings
  | stats (count : ℕ) (newest_ts hMin hMax hAvg tMin tMax tAvg : ℚ)
deriving DecidableEq

/-- Python `min` over a nonempty list (first element plus rest). -/
def listMin (x : ℚ) (xs : List ℚ) : ℚ := xs.foldl min x

/-- Python `max` over a nonempty list (first element plus rest). -/
def listMax (x : ℚ) (xs : List ℚ) : ℚ := xs.foldl max x

/-- `statistics.mean` of a nonempty list. -/
def listMean (l : List ℚ) : ℚ := l.sum / l.length

/-- `SensorApp.show_stats`: fetch the last up to 10 rows; when the result
set is empty show the informational "No readings available yet." message
and return without computing any statistic, otherwise compute min, max
and mean over humidity and temperature, labelled with the newest row's
timestamp. The dialog does not modify the application state. -/
def show_stats (s : SensorAppState) : StatsView :=
  match fetch_last_n s.conn 10 with
  | [] => .noReadings
  | r :: rest =>
      let hs := (r :: rest).map Reading.humidity
      let ts_vals := (r :: rest).map Reading.temperature
      .stats (r :: rest).length r.ts
        (listMin r.humidity (rest.map Reading.humidity))
        (listMax r.humidity (rest.map Reading.humidity))
        (listMean hs)
        (listMin r.temperature (rest.map Reading.temperature))
        (listMax r.temperature (rest.map Reading.temperature))
        (listMean ts_vals)

/-- Events of the single-threaded Qt event loop which affect the modelled
state. A timer tick can only fire while the timer is active; the spin
boxes clamp threshold edits to their configured ranges. -/
inductive Step : SensorAppState → SensorAppState → Prop where
  | read_one (jh jt now : ℚ) (s : SensorAppState) : Step s (read_one jh jt now s)
  | read_ten (s : SensorAppState) : Step s (read_ten s)
  | tick (jh jt now : ℚ) (s : SensorAppState) (ha : s.batch_timer_active = true) :
      Step s (batch_read_tick jh jt now s)
  | set_h_alarm (v : ℚ) (s : SensorAppState) (hv : 0 ≤ v ∧ v ≤ 100) :
      Step s { s with h_alarm := v }
  | set_t_alarm (v : ℚ) (s : SensorAppState) (hv : -20 ≤ v ∧ v ≤ 100) :
      Step s { s with t_alarm := v }

/-- States reachable from a freshly initialised application. -/
inductive Reachable : SensorAppState → Prop where
  | init : Reachable initState
  | step {s s' : SensorAppState} : Reachable s → Step s s' → Reachable s'

end SensorApp

/-! ## Helper lemmas -/

/-- Clamping with `max lo (min x hi)` always lands in `[lo, hi]`. -/
theorem clamp_mem {lo hi : ℚ} (x : ℚ) (hlh : lo ≤ hi) :
    lo ≤ max lo (min x hi) ∧ max lo (min x hi) ≤ hi :=
  ⟨le_max_left _ _, max_le hlh (min_le_right _ _)⟩

/-- The clamped outputs of `generate_values` are in range, whatever the
sensor state and the jitter outcomes. -/
theorem generate_values_bounds (jh jt : ℚ) (s : PseudoSensor) :
    0 ≤ (PseudoSensor.generate_values jh jt s).1.1 ∧
    (PseudoSensor.generate_values jh jt s).1.1 ≤ 100 ∧
    -20 ≤ (PseudoSensor.generate_values jh jt s).1.2 ∧
    (PseudoSensor.generate_values jh jt s).1.2 ≤ 100 := by
  unfold PseudoSensor.generate_values
  refine ⟨(clamp_mem _ (by norm_num)).1, (clamp_mem _ (by norm_num)).2,
    (clamp_mem _ (by norm_num)).1, (clamp_mem _ (by norm_num)).2⟩

/-- A persisted reading within the documented physical ranges. -/
def InRange (r : Reading) : Prop :=
  0 ≤ r.humidity ∧ r.humidity ≤ 100 ∧ -20 ≤ r.temperature ∧ r.temperature ≤ 100

/-! ## Claim theorems -/

/-- C3: the alarm evaluation yields true if and only if the humidity is
strictly above the humidity threshold or the temperature is strictly
above the temperature threshold; evaluating the alarm at readings equal
to their thresholds yields false. -/
theorem check_alarms_iff_strictly_above (h t h_alarm t_alarm : ℚ) :
    (SensorApp.check_alarms h t h_alarm t_alarm = true ↔
      (h > h_alarm ∨ t > t_alarm)) ∧
    SensorApp.check_alarms h_alarm t_alarm h_alarm t_alarm = false := by
  constructor
  · simp [SensorApp.check_alarms]
  · simp [SensorApp.check_alarms]

/-- C4: one call to `generate_values`, from any generator state (any pair
of band indices and cached values) and for any jitter outcome, returns a
humidity in [0, 100] and a temperature in [-20, 100]. -/
theorem generate_values_output_in_range (s : PseudoSensor) (jh jt : ℚ) :
    0 ≤ (PseudoSensor.generate_values jh jt s).1.1 ∧
    (PseudoSensor.generate_values jh jt s).1.1 ≤ 100 ∧
    -20 ≤ (PseudoSensor.generate_values jh jt s).1.2 ∧
    (PseudoSensor.generate_values jh jt s).1.2 ≤ 100 :=
  generate_values_bounds jh jt s

/-- C7: invoking `read_ten` while the batch timer is active leaves the
whole application state unchanged (remaining count, timer state, button
enablement, store contents, sensor state and all display fields). -/
theorem read_ten_noop_when_batch_running (s : SensorAppState)
    (h : s.batch_timer_active = true) : SensorApp.read_ten s = s := by
  simp [SensorApp.read_ten, h]

/-- Witness for C7 at a concrete state whose timer is active. -/
theorem read_ten_noop_when_batch_running_witness :
    ({ SensorApp.initState with batch_timer_active := true } : SensorAppState).batch_timer_active
        = true ∧
    SensorApp.read_ten { SensorApp.initState with batch_timer_active := true } =
      { SensorApp.initState with batch_timer_active := true } :=
  ⟨rfl, read_ten_noop_when_batch_running _ rfl⟩

/-- C8: with an empty store, `show_stats` yields the informational
"no readings" view; being a total function of the state, it computes no
statistics and raises no error in that case. -/
theorem show_stats_empty_store (s : SensorAppState) (h : s.conn = []) :
    SensorApp.show_stats s = SensorApp.StatsView.noReadings := by
  simp [SensorApp.show_stats, h, SensorApp.fetch_last_n]

/-- Witness for C8 at the freshly initialised application. -/
theorem show_stats_empty_store_witness :
    SensorApp.initState.conn = [] ∧
    SensorApp.show_stats SensorApp.initState = SensorApp.StatsView.noReadings :=
  ⟨rfl, show_stats_empty_store _ rfl⟩

/-- C10: `read_one` has no batch-state guard: from any state it performs
its full sample/insert/display/alarm cycle — the store grows by exactly
the one new row, the sensor advances, the labels, timestamp and alarm
indicator are refreshed — and it never modifies `batch_remaining`, the
batch timer's active flag, or the buttons' enablement. -/
theorem read_one_unguarded_full_cycle (jh jt now : ℚ) (s : SensorAppState) :
    (SensorApp.read_one jh jt now s).conn =
      s.conn ++ [{ ts := now,
                   humidity := (PseudoSensor.generate_values jh jt s.sensor).1.1,
                   temperature := (PseudoSensor.generate_values jh jt s.sensor).1.2 }] ∧
    (SensorApp.read_one jh jt now s).sensor =
      (PseudoSensor.generate_values jh jt s.sensor).2 ∧
    (SensorApp.read_one jh jt now s).h_label =
      some (PseudoSensor.generate_values jh jt s.sensor).1.1 ∧
    (SensorApp.read_one jh jt now s).t_label =
      some (PseudoSensor.generate_values jh jt s.sensor).1.2 ∧
    (SensorApp.read_one jh jt now s).ts_label = some now ∧
    (SensorApp.read_one jh jt now s).alarm_on =
      SensorApp.check_alarms (PseudoSensor.generate_values jh jt s.sensor).1.1
        (PseudoSensor.generate_values jh jt s.sensor).1.2 s.h_alarm s.t_alarm ∧
    (SensorApp.read_one jh jt now s).batch_remaining = s.batch_remaining ∧
    (SensorApp.read_one jh jt now s).batch_timer_active = s.batch_timer_active ∧
    (SensorApp.read_one jh jt now s).btn_read_one_enabled = s.btn_read_one_enabled ∧
    (SensorApp.read_one jh jt now s).btn_read_ten_enabled = s.btn_read_ten_enabled :=
  ⟨rfl, rfl, rfl, rfl, rfl, rfl, rfl, rfl, rfl, rfl⟩

/-- C2 counterexample: the claim quantifies over every integer `n`, but a
negative `LIMIT` argument means "no limit" in SQLite, so on a one-row
store `fetch_last_n` with `n = -1` returns one row, which is more than
`n` rows. -/
theorem fetch_last_n_negative_limit_counterexample :
    ¬ (((SensorApp.fetch_last_n [{ ts := 0, humidity := 0, temperature := 0 }] (-1)).length : ℤ)
        ≤ -1) := by
  decide

/-- C2 amended: for every nonnegative integer `n` and every store
content, `fetch_last_n` returns at most `n` rows ordered descending by
timestamp, and on the empty store it returns the empty sequence rather
than an error. -/
theorem fetch_last_n_spec (conn : List Reading) (n : ℤ) (hn : 0 ≤ n) :
    ((SensorApp.fetch_last_n conn n).length : ℤ) ≤ n ∧
    List.Sorted SensorApp.tsDesc (SensorApp.fetch_last_n conn n) ∧
    SensorApp.fetch_last_n [] n = [] := by
  unfold SensorApp.fetch_last_n
  rw [if_neg (not_lt.mpr hn), if_neg (not_lt.mpr hn)]
  refine ⟨?_, ?_, by simp [List.insertionSort]⟩
  · rw [List.length_take]
    have h1 : min n.toNat (List.insertionSort SensorApp.tsDesc conn).length ≤ n.toNat :=
      min_le_left _ _
    omega
  · exact List.Pairwise.sublist (List.take_sublist _ _)
      (List.sorted_insertionSort SensorApp.tsDesc conn)

/-- Witness for C2's amended theorem at a concrete store and `n = 1`. -/
theorem fetch_last_n_spec_witness :
    (0 : ℤ) ≤ 1 ∧
    (((SensorApp.fetch_last_n
          [{ ts := 1, humidity := 2, temperature := 3 },
           { ts := 5, humidity := 6, temperature := 7 }] 1).length : ℤ) ≤ 1 ∧
      List.Sorted SensorApp.tsDesc
        (SensorApp.fetch_last_n
          [{ ts := 1, humidity := 2, temperature := 3 },
           { ts := 5, humidity := 6, temperature := 7 }] 1) ∧
      SensorApp.fetch_last_n [] 1 = []) :=
  ⟨by decide, fetch_last_n_spec _ _ (by decide)⟩

/-- C1 counterexample: with a prior store containing a row whose
timestamp (10) exceeds the inserted timestamp (5), `insert` followed by
`fetch_last_n 1` returns the pre-existing newest row, not the inserted
one. -/
theorem insert_then_fetch_last_one_counterexample :
    ¬ (SensorApp.fetch_last_n
          (SensorApp.insert_reading [{ ts := 10, humidity := 1, temperature := 1 }]
            2 2 none 5).2 1 =
        [{ ts := (SensorApp.insert_reading [{ ts := 10, humidity := 1, temperature := 1 }]
                    2 2 none 5).1,
           humidity := 2, temperature := 2 }]) := by
  decide

/-- C1 amended: provided the recorded timestamp is strictly greater than
every timestamp already in the store, `insert` followed by
`fetch_last_n 1` returns exactly the inserted row's humidity and
temperature, with a timestamp equal to the value returned by the
insert. -/
theorem insert_then_fetch_last_one (conn : List Reading) (h t : ℚ) (ts : Option ℚ) (now : ℚ)
    (hnew : ∀ r ∈ conn, r.ts < ts.getD now) :
    SensorApp.fetch_last_n (SensorApp.insert_reading conn h t ts now).2 1 =
      [{ ts := (SensorApp.insert_reading conn h t ts now).1, humidity := h, temperature := t }] := by
  set r0 : Reading := { ts := ts.getD now, humidity := h, temperature := t } with hr0
  have hL : (SensorApp.insert_reading conn h t ts now).2 = conn ++ [r0] := rfl
  have hts1 : (SensorApp.insert_reading conn h t ts now).1 = ts.getD now := rfl
  rw [hL, hts1]
  unfold SensorApp.fetch_last_n
  rw [if_neg (by norm_num : ¬ (1 : ℤ) < 0)]
  obtain ⟨hd, tail, heq⟩ :
      ∃ hd tail, List.insertionSort SensorApp.tsDesc (conn ++ [r0]) = hd :: tail := by
    cases hs : List.insertionSort SensorApp.tsDesc (conn ++ [r0]) with
    | nil =>
        have hperm := List.perm_insertionSort SensorApp.tsDesc (conn ++ [r0])
        rw [hs] at hperm
        have := hperm.symm.eq_nil
        simp at this
    | cons a l => exact ⟨a, l, rfl⟩
  have hsorted : List.Sorted SensorApp.tsDesc (hd :: tail) :=
    heq ▸ List.sorted_insertionSort SensorApp.tsDesc (conn ++ [r0])
  have hmemhd : hd ∈ conn ++ [r0] :=
    (List.perm_insertionSort SensorApp.tsDesc (conn ++ [r0])).subset
      (heq ▸ List.mem_cons_self hd tail)
  have hmemr0 : r0 ∈ hd :: tail := by
    rw [← heq]
    exact (List.perm_insertionSort SensorApp.tsDesc (conn ++ [r0])).mem_iff.mpr (by simp)
  have hhd : hd = r0 := by
    rcases List.mem_append.mp hmemhd with hin | hr
    · exfalso
      have hlt : hd.ts < ts.getD now := hnew hd hin
      rcases List.mem_cons.mp hmemr0 with he | htl
      · rw [← he] at hlt
        exact lt_irrefl _ hlt
      · have hrel : SensorApp.tsDesc hd r0 := List.rel_of_sorted_cons hsorted r0 htl
        have hle : ts.getD now ≤ hd.ts := hrel
        exact absurd hlt (not_lt.mpr hle)
    · simpa using hr
  rw [heq, hhd]
  rfl

/-- Witness for C1's amended theorem: a concrete prior store whose only
timestamp (1) is below the inserted one (5). -/
theorem insert_then_fetch_last_one_witness :
    (∀ r ∈ [({ ts := 1, humidity := 0, temperature := 0 } : Reading)],
        r.ts < (none : Option ℚ).getD 5) ∧
    SensorApp.fetch_last_n
        (SensorApp.insert_reading [{ ts := 1, humidity := 0, temperature := 0 }] 7 8 none 5).2 1 =
      [{ ts := (SensorApp.insert_reading [{ ts := 1, humidity := 0, temperature := 0 }]
                  7 8 none 5).1,
         humidity := 7, temperature := 8 }] :=
  ⟨by decide, insert_then_fetch_last_one _ _ _ _ _ (by decide)⟩

/-- Field characterization of one `_batch_read_tick`: one row is
appended, `batch_remaining` is decremented, and the timer/buttons change
exactly when the decremented count has reached 0. -/
theorem batch_read_tick_fields (jh jt now : ℚ) (s : SensorAppState) :
    (SensorApp.batch_read_tick jh jt now s).conn =
      s.conn ++ [{ ts := now,
                   humidity := (PseudoSensor.generate_values jh jt s.sensor).1.1,
                   temperature := (PseudoSensor.generate_values jh jt s.sensor).1.2 }] ∧
    (SensorApp.batch_read_tick jh jt now s).batch_remaining = s.batch_remaining - 1 ∧
    (SensorApp.batch_read_tick jh jt now s).batch_timer_active =
      (if s.batch_remaining - 1 ≤ 0 then false else s.batch_timer_active) ∧
    (SensorApp.batch_read_tick jh jt now s).btn_read_one_enabled =
      (if s.batch_remaining - 1 ≤ 0 then true else s.btn_read_one_enabled) ∧
    (SensorApp.batch_read_tick jh jt now s).btn_read_ten_enabled =
      (if s.batch_remaining - 1 ≤ 0 then true else s.btn_read_ten_enabled) := by
  simp only [SensorApp.batch_read_tick, SensorApp.update_latest_display,
    SensorApp.insert_reading]
  split
  next hc =>
    have h1 : s.batch_remaining - 1 ≤ 0 := by omega
    have h2 : s.batch_remaining ≤ 1 := by omega
    simp [h1, h2]
  next hc =>
    have h1 : ¬ (s.batch_remaining - 1 ≤ 0) := by omega
    have h2 : ¬ (s.batch_remaining ≤ 1) := by omega
    simp [h1, h2]

/-- `read_one` appends exactly the newly generated (clamped) reading,
timestamped `now`. -/
theorem read_one_conn (jh jt now : ℚ) (s : SensorAppState) :
    (SensorApp.read_one jh jt now s).conn =
      s.conn ++ [{ ts := now,
                   humidity := (PseudoSensor.generate_values jh jt s.sensor).1.1,
                   temperature := (PseudoSensor.generate_values jh jt s.sensor).1.2 }] := rfl

/-- `read_ten` never touches the store, in either branch. -/
theorem read_ten_conn (s : SensorAppState) : (SensorApp.read_ten s).conn = s.conn := by
  unfold SensorApp.read_ten
  split <;> rfl

/-- C5: in every reachable application state, every reading persisted in
the store is in range (humidity in [0, 100], temperature in [-20, 100]);
and the store itself performs no check — `insert_reading` appends the
row it is given unchanged, in range or not, so the invariant rests on
the generator's clamping alone. -/
theorem reachable_store_in_range (s : SensorAppState) (hs : SensorApp.Reachable s) :
    (∀ r ∈ s.conn, InRange r) ∧
    (∀ (conn : List Reading) (h t : ℚ) (ts : Option ℚ) (now : ℚ),
      (SensorApp.insert_reading conn h t ts now).2 =
        conn ++ [{ ts := ts.getD now, humidity := h, temperature := t }]) := by
  refine ⟨?_, fun _ _ _ _ _ => rfl⟩
  induction hs with
  | init => intro r hr; simp [SensorApp.initState] at hr
  | step hr hstep ih =>
      rename_i s1 s2
      cases hstep with
      | read_one jh jt now =>
          intro r hrm
          rw [read_one_conn] at hrm
          rcases List.mem_append.mp hrm with hin | hnew
          · exact ih r hin
          · rw [List.mem_singleton] at hnew
            subst hnew
            exact ⟨(generate_values_bounds jh jt s1.sensor).1,
                   (generate_values_bounds jh jt s1.sensor).2.1,
                   (generate_values_bounds jh jt s1.sensor).2.2.1,
                   (generate_values_bounds jh jt s1.sensor).2.2.2⟩
      | read_ten =>
          intro r hrm
          rw [read_ten_conn] at hrm
          exact ih r hrm
      | tick jh jt now =>
          intro r hrm
          rw [(batch_read_tick_fields jh jt now s1).1] at hrm
          rcases List.mem_append.mp hrm with hin | hnew
          · exact ih r hin
          · rw [List.mem_singleton] at hnew
            subst hnew
            exact ⟨(generate_values_bounds jh jt s1.sensor).1,
                   (generate_values_bounds jh jt s1.sensor).2.1,
                   (generate_values_bounds jh jt s1.sensor).2.2.1,
                   (generate_values_bounds jh jt s1.sensor).2.2.2⟩
      | set_h_alarm v hv =>
          intro r hrm
          exact ih r hrm
      | set_t_alarm v hv =>
          intro r hrm
          exact ih r hrm

/-- Witness for C5 at the reachable state obtained after one `read_one`
from the fresh application (its store holds exactly one row). -/
theorem reachable_store_in_range_witness :
    (∀ r ∈ (SensorApp.read_one 0 0 1 SensorApp.initState).conn, InRange r) ∧
    (∀ (conn : List Reading) (h t : ℚ) (ts : Option ℚ) (now : ℚ),
      (SensorApp.insert_reading conn h t ts now).2 =
        conn ++ [{ ts := ts.getD now, humidity := h, temperature := t }]) :=
  reachable_store_in_range _
    (SensorApp.Reachable.step SensorApp.Reachable.init
      (SensorApp.Step.read_one 0 0 1 SensorApp.initState))

/-- C9: in every reachable quiescent state the batch timer is active if
and only if `batch_remaining` is positive, and `batch_remaining` is
never negative. -/
theorem reachable_batch_invariant (s : SensorAppState) (hs : SensorApp.Reachable s) :
    (s.batch_timer_active = true ↔ 0 < s.batch_remaining) ∧ 0 ≤ s.batch_remaining := by
  induction hs with
  | init => simp [SensorApp.initState]
  | step hr hstep ih =>
      rename_i s1 s2
      cases hstep with
      | read_one jh jt now => exact ih
      | read_ten =>
          unfold SensorApp.read_ten
          split
          · exact ih
          · simp
      | tick jh jt now =>
          rename_i ha
          obtain ⟨-, hrem, hact, -, -⟩ := batch_read_tick_fields jh jt now s1
          rw [hrem, hact]
          have hpos : 0 < s1.batch_remaining := (ih.1).mp ha
          by_cases hc : s1.batch_remaining - 1 ≤ 0
          · rw [if_pos hc]
            constructor
            · constructor
              · intro hfalse; cases hfalse
              · intro hlt; omega
            · omega
          · rw [if_neg hc]
            constructor
            · rw [ha]
              constructor
              · intro _; omega
              · intro _; rfl
            · omega
      | set_h_alarm v hv => exact ih
      | set_t_alarm v hv => exact ih

/-- Witness for C9 at the reachable state right after `read_ten` starts a
batch (timer active, `batch_remaining = 10`). -/
theorem reachable_batch_invariant_witness :
    ((SensorApp.read_ten SensorApp.initState).batch_timer_active = true ↔
      0 < (SensorApp.read_ten SensorApp.initState).batch_remaining) ∧
    0 ≤ (SensorApp.read_ten SensorApp.initState).batch_remaining :=
  reachable_batch_invariant _
    (SensorApp.Reachable.step SensorApp.Reachable.init
      (SensorApp.Step.read_ten SensorApp.initState))

/-- A run of exactly `inputs.length` timer ticks from a state whose
timer is active with `batch_remaining = inputs.length` ends with
`batch_remaining = 0`, the timer stopped, both buttons re-enabled, and
exactly `inputs.length` new rows appended after the original store
contents. -/
theorem runTicks_completes (inputs : List (ℚ × ℚ × ℚ)) :
    ∀ s : SensorAppState, s.batch_timer_active = true →
      s.batch_remaining = inputs.length → inputs ≠ [] →
      (SensorApp.runTicks inputs s).batch_remaining = 0 ∧
      (SensorApp.runTicks inputs s).batch_timer_active = false ∧
      (SensorApp.runTicks inputs s).btn_read_one_enabled = true ∧
      (SensorApp.runTicks inputs s).btn_read_ten_enabled = true ∧
      (SensorApp.runTicks inputs s).conn.length = s.conn.length + inputs.length ∧
      List.take s.conn.length (SensorApp.runTicks inputs s).conn = s.conn := by
  induction inputs with
  | nil => intro s _ _ hne; exact absurd rfl hne
  | cons e rest ih =>
      intro s ha hrem _
      obtain ⟨hconn, hrem', hact, hb1, hb2⟩ := batch_read_tick_fields e.1 e.2.1 e.2.2 s
      have hrun : SensorApp.runTicks (e :: rest) s =
          SensorApp.runTicks rest (SensorApp.batch_read_tick e.1 e.2.1 e.2.2 s) := rfl
      rw [hrun]
      by_cases hrest : rest = []
      · subst hrest
        have h1 : s.batch_remaining = 1 := by
          rw [hrem]; simp
        have hstop : s.batch_remaining - 1 ≤ 0 := by omega
        have hrun2 : SensorApp.runTicks [] (SensorApp.batch_read_tick e.1 e.2.1 e.2.2 s) =
            SensorApp.batch_read_tick e.1 e.2.1 e.2.2 s := rfl
        rw [hrun2]
        refine ⟨by omega, ?_, ?_, ?_, ?_, ?_⟩
        · rw [hact, if_pos hstop]
        · rw [hb1, if_pos hstop]
        · rw [hb2, if_pos hstop]
        · rw [hconn]; simp
        · rw [hconn]
          exact List.take_left s.conn _
      · have hlen : 0 < rest.length := List.length_pos.mpr hrest
        have hcont : ¬ (s.batch_remaining - 1 ≤ 0) := by
          rw [hrem]
          simp only [List.length_cons]
          push_cast
          omega
        have ha' : (SensorApp.batch_read_tick e.1 e.2.1 e.2.2 s).batch_timer_active = true := by
          rw [hact, if_neg hcont, ha]
        have hrem'' : (SensorApp.batch_read_tick e.1 e.2.1 e.2.2 s).batch_remaining =
            rest.length := by
          rw [hrem', hrem]
          simp only [List.length_cons]
          push_cast
          omega
        obtain ⟨c1, c2, c3, c4, c5, c6⟩ := ih _ ha' hrem'' hrest
        refine ⟨c1, c2, c3, c4, ?_, ?_⟩
        · rw [c5, hconn]
          simp only [List.length_append, List.length_cons, List.length_nil]
          omega
        · have hle : s.conn.length ≤
              (SensorApp.batch_read_tick e.1 e.2.1 e.2.2 s).conn.length := by
            rw [hconn]; simp
          have hsplit : List.take s.conn.length
              (SensorApp.runTicks rest (SensorApp.batch_read_tick e.1 e.2.1 e.2.2 s)).conn =
              List.take s.conn.length
                (List.take (SensorApp.batch_read_tick e.1 e.2.1 e.2.2 s).conn.length
                  (SensorApp.runTicks rest (SensorApp.batch_read_tick e.1 e.2.1 e.2.2 s)).conn) := by
            rw [List.take_take, min_eq_left hle]
          rw [hsplit, c6, hconn]
          exact List.take_left s.conn _

/-- C6: starting from a state whose batch timer is inactive (Idle),
invoking `read_ten` and then running exactly 10 timer ticks ends with
`batch_remaining = 0`, the timer stopped, the Read-1 and Read-10 buttons
re-enabled, and exactly 10 new rows appended to the store. -/
theorem read_ten_then_ten_ticks (s : SensorAppState) (inputs : List (ℚ × ℚ × ℚ))
    (hidle : s.batch_timer_active = false) (hlen : inputs.length = 10) :
    (SensorApp.runTicks inputs (SensorApp.read_ten s)).batch_remaining = 0 ∧
    (SensorApp.runTicks inputs (SensorApp.read_ten s)).batch_timer_active = false ∧
    (SensorApp.runTicks inputs (SensorApp.read_ten s)).btn_read_one_enabled = true ∧
    (SensorApp.runTicks inputs (SensorApp.read_ten s)).btn_read_ten_enabled = true ∧
    (SensorApp.runTicks inputs (SensorApp.read_ten s)).conn.length = s.conn.length + 10 ∧
    List.take s.conn.length (SensorApp.runTicks inputs (SensorApp.read_ten s)).conn
      = s.conn := by
  have hne : inputs ≠ [] := by
    intro h
    rw [h] at hlen
    simp at hlen
  have hten : (SensorApp.read_ten s).batch_timer_active = true ∧
      (SensorApp.read_ten s).batch_remaining = 10 ∧
      (SensorApp.read_ten s).conn = s.conn := by
    unfold SensorApp.read_ten
    rw [if_neg (by simp [hidle])]
    exact ⟨rfl, rfl, rfl⟩
  obtain ⟨c1, c2, c3, c4, c5, c6⟩ :=
    runTicks_completes inputs (SensorApp.read_ten s) hten.1
      (by rw [hten.2.1, hlen]; norm_num) hne
  rw [hten.2.2] at c5 c6
  refine ⟨c1, c2, c3, c4, ?_, c6⟩
  rw [c5, hlen]

/-- Witness for C6: a concrete 10-tick batch run from the fresh
application. -/
theorem read_ten_then_ten_ticks_witness :
    SensorApp.initState.batch_timer_active = false ∧
    (List.replicate 10 ((0 : ℚ), (0 : ℚ), (0 : ℚ))).length = 10 ∧
    ((SensorApp.runTicks (List.replicate 10 ((0 : ℚ), (0 : ℚ), (0 : ℚ)))
        (SensorApp.read_ten SensorApp.initState)).batch_remaining = 0 ∧
     (SensorApp.runTicks (List.replicate 10 ((0 : ℚ), (0 : ℚ), (0 : ℚ)))
        (SensorApp.read_ten SensorApp.initState)).batch_timer_active = false ∧
     (SensorApp.runTicks (List.replicate 10 ((0 : ℚ), (0 : ℚ), (0 : ℚ)))
        (SensorApp.read_ten SensorApp.initState)).btn_read_one_enabled = true ∧
     (SensorApp.runTicks (List.replicate 10 ((0 : ℚ), (0 : ℚ), (0 : ℚ)))
        (SensorApp.read_ten SensorApp.initState)).btn_read_ten_enabled = true ∧
     (SensorApp.runTicks (List.replicate 10 ((0 : ℚ), (0 : ℚ), (0 : ℚ)))
        (SensorApp.read_ten SensorApp.initState)).conn.length
          = SensorApp.initState.conn.length + 10 ∧
     List.take SensorApp.initState.conn.length
        (SensorApp.runTicks (List.replicate 10 ((0 : ℚ), (0 : ℚ), (0 : ℚ)))
          (SensorApp.read_ten SensorApp.initState)).conn = SensorApp.initState.conn) :=
  ⟨rfl, rfl, read_ten_then_ten_ticks SensorApp.initState _ rfl rfl⟩
